import Mathlib

/-!
Shallow embedding of `src/main.rs` of pawprint-vpn: a one-shot converter from
a VLESS proxy URL to an Xray JSON configuration file.

Modelling choices, all driven by the source:

* JSON values built by the `json!` macro are modelled by the inductive `Json`
  (strings, integers, booleans, arrays, objects as key/value lists in
  insertion order; `serde_json`'s map may store keys sorted, which affects
  only the byte order of serialized keys, not any key/value observation).
* The `url` crate is external to the repository; a parsed URL is modelled by
  the structure `Url`, whose fields hold exactly what the crate's accessors
  return on a successfully parsed URL: `username()` (empty string when
  absent), `host_str()`, `port()` (no default for the non-special `vless`
  scheme), `query_pairs()` (percent-decoded pairs in order), and
  `fragment()` (returned raw, not percent-decoded).  `parse_config` takes
  the raw string plus `Option Url` standing for the result of `Url::parse`.
* The `HashMap<String, String>` built from `query_pairs()` is modelled by
  the pair list itself; `getParam` returns the last binding of a key,
  which is exactly the observable behaviour of the insert loop
  (last-write-wins) followed by `get`.
* The file system touched by `save_config` is a finite map from path
  strings to file contents (`FS`); the world is passed explicitly and the
  function returns the new world plus an optional error, mirroring the
  `Result` return.  I/O failures of the OS (permissions, disk full) and
  directory creation are outside the model; `Path::exists`, `fs::write`
  and `fs::rename` (which overwrites its destination) are modelled.
-/

/-- JSON values as produced by the `json!` macro in `build_config`.
Objects keep their fields as a list in insertion order. -/
inductive Json where
  | str (s : String)
  | nat (n : Nat)
  | bool (b : Bool)
  | arr (items : List Json)
  | obj (fields : List (String × Json))

/-- Field lookup on a JSON object (`Value::get` / indexing). -/
def Json.getKey : Json → String → Option Json
  | .obj fields, k => (fields.find? (fun p => p.1 == k)).map (·.2)
  | _, _ => none

/-- Whether a JSON object carries a field named `k`. -/
def Json.hasKey (j : Json) (k : String) : Bool :=
  (j.getKey k).isSome

/-- `value[key] = v` on a `serde_json` object: replace the binding if the
key is present, append it otherwise.  (In the source it is only ever
applied to objects.) -/
def Json.setKey : Json → String → Json → Json
  | .obj fields, k, v =>
    if fields.any (fun p => p.1 == k) then
      .obj (fields.map (fun p => if p.1 == k then (k, v) else p))
    else
      .obj (fields ++ [(k, v)])
  | j, _, _ => j

/-- The connection descriptor produced by the parser (struct `VlessConfig`).
`params` holds the query pairs in order; the `HashMap` built from them by
the insert loop is observed through `getParam` (last-write-wins). -/
structure VlessConfig where
  uuid : String
  address : String
  port : Nat
  params : List (String × String)
  tag : String
deriving Repr, DecidableEq

/-- `HashMap::get` on the map built by inserting the pairs in order:
the value of the last occurrence of the key. -/
def getParam (params : List (String × String)) (k : String) : Option String :=
  (params.reverse.find? (fun p => p.1 == k)).map (·.2)

/-- A successfully parsed URL, holding what the `url` crate's accessors
return: `username()` is `""` when the credential slot is absent,
`port()` is `none` when no explicit port is given (the non-special
`vless` scheme has no default port), `query_pairs()` yields decoded
pairs, and `fragment()` is returned raw (not percent-decoded). -/
structure Url where
  username : String
  host : Option String
  port : Option Nat
  queryPairs : List (String × String)
  fragment : Option String
deriving Repr, DecidableEq

/-- The error kinds of `parse_config` (the source uses message strings;
each distinct early return is one constructor). -/
inductive ParseError where
  | invalidScheme
  | malformedUrl
  | missingIdentity
  | missingHost
  | missingPort
deriving Repr, DecidableEq

/-- Rust `str::starts_with` with a string pattern: a prefix test on the
character sequence (equivalent to the byte-prefix test on UTF-8). -/
def starts_with (s pre : String) : Bool :=
  pre.toList.isPrefixOf s.toList

/-- `parse_config` from the source: scheme check on the raw string, then
extraction from the parsed URL (`url?` is the result of `Url::parse`,
`none` when the URL is malformed). -/
def parse_config (config : String) (url? : Option Url) :
    Except ParseError VlessConfig :=
  if ¬ starts_with config "vless://" then
    .error .invalidScheme
  else
    match url? with
    | none => .error .malformedUrl
    | some url =>
      let uuid := url.username
      if uuid.isEmpty then
        .error .missingIdentity
      else
        match url.host with
        | none => .error .missingHost
        | some address =>
          match url.port with
          | none => .error .missingPort
          | some port =>
            let params := url.queryPairs
            let tag := url.fragment.getD "VLESS-Config"
            .ok { uuid := uuid, address := address, port := port,
                  params := params, tag := tag }

/-- `network_type` binding in `build_config`. -/
def network_type (c : VlessConfig) : String :=
  (getParam c.params "type").getD "tcp"

/-- `security` binding in `build_config`. -/
def security (c : VlessConfig) : String :=
  (getParam c.params "security").getD "tls"

/-- The `realitySettings` object assigned when `security == "reality"`. -/
def reality_settings (c : VlessConfig) : Json :=
  let pbk := (getParam c.params "pbk").getD ""
  let sni := (getParam c.params "sni").getD ""
  let fp := (getParam c.params "fp").getD "chrome"
  let sid := (getParam c.params "sid").getD ""
  .obj [("publicKey", .str pbk),
        ("password", .str pbk),
        ("fingerprint", .str fp),
        ("serverName", .str sni),
        ("shortId", .str sid),
        ("spiderX", .str "/")]

/-- The `tlsSettings` object assigned when `security == "tls"`. -/
def tls_settings (c : VlessConfig) : Json :=
  let sni := (getParam c.params "sni").getD c.address
  .obj [("serverName", .str sni),
        ("allowInsecure", .bool false)]

/-- The `stream_settings` value of `build_config`: the base object plus
the mode-dependent assignment. -/
def stream_settings (c : VlessConfig) : Json :=
  let base : Json := .obj [("network", .str (network_type c)),
                           ("security", .str (security c))]
  if security c == "reality" then
    base.setKey "realitySettings" (reality_settings c)
  else if security c == "tls" then
    base.setKey "tlsSettings" (tls_settings c)
  else
    base

/-- The `user` value of `build_config`: base object, plus a `flow` field
exactly when the `flow` parameter is present. -/
def user_obj (c : VlessConfig) : Json :=
  let base : Json := .obj [("id", .str c.uuid),
                           ("encryption", .str "none"),
                           ("level", .nat 0)]
  match getParam c.params "flow" with
  | some flow_val => base.setKey "flow" (.str flow_val)
  | none => base

/-- The `outbound` value of `build_config`. -/
def outbound (c : VlessConfig) : Json :=
  .obj [("protocol", .str "vless"),
        ("settings", .obj
          [("vnext", .arr
            [ .obj [("address", .str c.address),
                    ("port", .nat c.port),
                    ("users", .arr [user_obj c])] ])]),
        ("streamSettings", stream_settings c),
        ("tag", .str c.tag)]

/-- The fixed `inbound` value of `build_config`. -/
def inbound : Json :=
  .obj [("port", .nat 10808),
        ("protocol", .str "socks"),
        ("settings", .obj [("auth", .str "noauth"), ("udp", .bool true)]),
        ("tag", .str "socks-in")]

/-- Struct `XrayConfig` (serialized with its two fields in order). -/
structure XrayConfig where
  inbounds : List Json
  outbounds : List Json

/-- `build_config` from the source. -/
def build_config (c : VlessConfig) : XrayConfig :=
  { inbounds := [inbound], outbounds := [outbound c] }

/-- One hexadecimal digit (lower case). -/
def hexDigit (n : Nat) : Char :=
  if n < 10 then Char.ofNat (48 + n) else Char.ofNat (87 + n)

/-- JSON string escaping as performed by `serde_json`. -/
def escapeChar (c : Char) : String :=
  if c = '"' then "\\\""
  else if c = '\\' then "\\\\"
  else if c.toNat = 8 then "\\b"
  else if c.toNat = 12 then "\\f"
  else if c = '\n' then "\\n"
  else if c = '\r' then "\\r"
  else if c = '\t' then "\\t"
  else if c.toNat < 32 then
    "\\u00" ++ String.mk [hexDigit (c.toNat / 16), hexDigit (c.toNat % 16)]
  else
    String.singleton c

/-- Escape every character of a JSON string. -/
def escapeString (s : String) : String :=
  String.join (s.toList.map escapeChar)

/-- A quoted, escaped JSON string literal. -/
def quoteJson (s : String) : String :=
  "\"" ++ escapeString s ++ "\""

/-- Two spaces of indentation per nesting level (`serde_json` pretty). -/
def indentStr (n : Nat) : String :=
  String.mk (List.replicate (2 * n) ' ')

mutual

/-- Pretty-print a JSON value at a given nesting depth
(`serde_json::to_string_pretty` layout). -/
def Json.render : Nat → Json → String
  | _, .str s => quoteJson s
  | _, .nat n => toString n
  | _, .bool b => if b then "true" else "false"
  | _, .arr [] => "[]"
  | ind, .arr (x :: xs) =>
    "[\n" ++ renderItems (ind + 1) (x :: xs) ++ "\n" ++ indentStr ind ++ "]"
  | _, .obj [] => "\x7b\x7d"
  | ind, .obj (f :: fs) =>
    "\x7b\n" ++ renderFields (ind + 1) (f :: fs) ++ "\n" ++ indentStr ind ++ "\x7d"

/-- Render array items, one per line, comma separated. -/
def renderItems : Nat → List Json → String
  | _, [] => ""
  | ind, [x] => indentStr ind ++ Json.render ind x
  | ind, x :: y :: xs =>
    indentStr ind ++ Json.render ind x ++ ",\n" ++ renderItems ind (y :: xs)

/-- Render object fields, one per line, comma separated. -/
def renderFields : Nat → List (String × Json) → String
  | _, [] => ""
  | ind, [(k, v)] => indentStr ind ++ quoteJson k ++ ": " ++ Json.render ind v
  | ind, (k, v) :: f :: fs =>
    indentStr ind ++ quoteJson k ++ ": " ++ Json.render ind v ++ ",\n" ++
      renderFields ind (f :: fs)

end

/-- `serde_json::to_string_pretty` applied to an `XrayConfig` (derived
`Serialize`: one object with the two fields in declaration order). -/
def to_string_pretty (cfg : XrayConfig) : String :=
  Json.render 0 (.obj [("inbounds", .arr cfg.inbounds),
                       ("outbounds", .arr cfg.outbounds)])

/-- The file system visible to `save_config`: a finite map from path
strings to file contents, as an association list with unique keys. -/
structure FS where
  files : List (String × String)
deriving Repr, DecidableEq

/-- Contents of the file at `p`, if any (`fs::read`-style observation). -/
def FS.read (fs : FS) (p : String) : Option String :=
  (fs.files.find? (fun f => f.1 == p)).map (·.2)

/-- `Path::exists`. -/
def FS.pathExists (fs : FS) (p : String) : Bool :=
  (fs.read p).isSome

/-- `fs::write`: create or truncate the file at `p` with `content`. -/
def FS.write (fs : FS) (p content : String) : FS :=
  ⟨(fs.files.filter (fun f => f.1 != p)) ++ [(p, content)]⟩

/-- `fs::rename src dst`: move the file, silently replacing any existing
file at `dst` (POSIX rename semantics). -/
def FS.rename (fs : FS) (src dst : String) : FS :=
  match fs.read src with
  | none => fs
  | some content => (FS.mk (fs.files.filter (fun f => f.1 != src))).write dst content

/-- The one error kind `save_config` itself produces.  OS-level I/O
failures (the spec's `PersistenceError`) are outside the model. -/
inductive SaveError where
  | destinationExists
deriving Repr, DecidableEq

/-- `save_config` from the source, with the world passed explicitly:
refuse if the destination exists and `force` is not set, otherwise write
the pretty-printed JSON to `output_path ++ ".tmp"` and rename it onto
`output_path`.  (`create_dir_all` is a no-op in the flat path model.) -/
def save_config (fs : FS) (config : XrayConfig) (output_path : String)
    (force : Bool) : FS × Option SaveError :=
  if fs.pathExists output_path && !force then
    (fs, some .destinationExists)
  else
    let json_content := to_string_pretty config
    let temp_path := output_path ++ ".tmp"
    let fs₁ := fs.write temp_path json_content
    let fs₂ := fs₁.rename temp_path output_path
    (fs₂, none)

/-- Modelled from the spec: standard percent-decoding, used only to state
the spec's phrase "percent-decoded" (byte-level: a `%` followed by two
hex digits becomes the character with that code; adequate for the ASCII
inputs considered here).  The source never decodes the fragment. -/
def percentDecodeChars : List Char → List Char
  | [] => []
  | '%' :: h₁ :: h₂ :: rest =>
    let hv : Char → Option Nat := fun c =>
      if '0' ≤ c ∧ c ≤ '9' then some (c.toNat - 48)
      else if 'a' ≤ c ∧ c ≤ 'f' then some (c.toNat - 87)
      else if 'A' ≤ c ∧ c ≤ 'F' then some (c.toNat - 55)
      else none
    match hv h₁, hv h₂ with
    | some a, some b => Char.ofNat (16 * a + b) :: percentDecodeChars rest
    | _, _ => '%' :: percentDecodeChars (h₁ :: h₂ :: rest)
  | ch :: rest => ch :: percentDecodeChars rest

/-- Modelled from the spec: percent-decode a string. -/
def percentDecode (s : String) : String :=
  String.mk (percentDecodeChars s.toList)

/-! ### Helper lemmas for the association-list file system -/

/-- Looking a key `q` up after filtering out key `p` and appending a
`p`-binding is the same as looking it up in the original list, for
`q ≠ p`. -/
theorem find?_key_filter_append (l : List (String × String)) (p c q : String)
    (h : q ≠ p) :
    ((l.filter fun f => f.1 != p) ++ [(p, c)]).find? (fun f => f.1 == q) =
      l.find? (fun f => f.1 == q) := by
  have hpq : (p == q) = false := beq_eq_false_iff_ne.mpr (Ne.symm h)
  induction l with
  | nil =>
    simp only [List.filter_nil, List.nil_append, List.find?_cons, hpq, List.find?_nil]
  | cons a l ih =>
    by_cases ha : a.1 = p
    · have h1 : (a.1 != p) = false := by simp [ha]
      have h2 : (a.1 == q) = false := by simp [ha, Ne.symm h]
      simp only [List.filter_cons, h1, Bool.false_eq_true, if_false,
        List.find?_cons, h2, ih]
    · have h1 : (a.1 != p) = true := by simp [ha]
      by_cases haq : a.1 = q
      · have h2 : (a.1 == q) = true := by simp [haq]
        simp only [List.filter_cons, h1, if_true, List.cons_append,
          List.find?_cons, h2]
      · have h2 : (a.1 == q) = false := by simp [haq]
        simp only [List.filter_cons, h1, if_true, List.cons_append,
          List.find?_cons, h2, ih]

/-- After filtering out key `q`, no `q`-binding can be found. -/
theorem find?_key_filter_self (l : List (String × String)) (q : String) :
    (l.filter fun f => f.1 != q).find? (fun f => f.1 == q) = none := by
  induction l with
  | nil => simp
  | cons a l ih =>
    by_cases ha : a.1 = q
    · have h1 : (a.1 != q) = false := by simp [ha]
      simp only [List.filter_cons, h1, Bool.false_eq_true, if_false, ih]
    · have h1 : (a.1 != q) = true := by simp [ha]
      have h2 : (a.1 == q) = false := by simp [ha]
      simp only [List.filter_cons, h1, if_true, List.find?_cons, h2, ih]

/-- Reading a path right after writing it yields the written content. -/
theorem FS.read_write_self (fs : FS) (p c : String) :
    (fs.write p c).read p = some c := by
  unfold FS.read FS.write
  induction fs.files with
  | nil => simp [List.find?]
  | cons a l ih =>
    by_cases h : a.1 = p
    · simp only [List.filter_cons, h, bne_self_eq_false, Bool.false_eq_true,
        if_false] at ih ⊢
      exact ih
    · have h1 : (a.1 != p) = true := by simp [h]
      have h2 : (a.1 == p) = false := by simp [h]
      simp only [List.filter_cons, h1, if_true, List.cons_append,
        List.find?_cons, h2] at ih ⊢
      exact ih

/-- Writing one path leaves every other path unchanged. -/
theorem FS.read_write_ne (fs : FS) (p c q : String) (h : q ≠ p) :
    (fs.write p c).read q = fs.read q := by
  unfold FS.read FS.write
  rw [find?_key_filter_append fs.files p c q h]

/-- `rename` on an existing source file removes the source binding and
writes its content at the destination. -/
theorem FS.rename_eq (fs : FS) (src dst ct : String) (h : fs.read src = some ct) :
    fs.rename src dst =
      (FS.mk (fs.files.filter (fun f => f.1 != src))).write dst ct := by
  unfold FS.rename
  rw [h]

/-- The temporary sibling path is distinct from the destination path. -/
theorem append_tmp_ne (p : String) : p ++ ".tmp" ≠ p := by
  intro h
  have hlen := congrArg String.length h
  have h4 : (".tmp" : String).length = 4 := rfl
  rw [String.length_append, h4] at hlen
  omega

/-- Whenever `save_config` proceeds to write (destination absent or
`force` set), it performs exactly write-temp-then-rename, the destination
ends up holding the serialized config, and the temporary slot ends up
empty. -/
theorem save_config_writes (fs : FS) (cfg : XrayConfig) (path : String)
    (force : Bool) (h : fs.pathExists path = false ∨ force = true) :
    save_config fs cfg path force =
      ((fs.write (path ++ ".tmp") (to_string_pretty cfg)).rename
        (path ++ ".tmp") path, none)
  ∧ (save_config fs cfg path force).1.read path = some (to_string_pretty cfg)
  ∧ (save_config fs cfg path force).1.read (path ++ ".tmp") = none := by
  have hcond : (fs.pathExists path && !force) = false := by
    rcases h with h | h <;> simp [h]
  have hmain : save_config fs cfg path force =
      ((fs.write (path ++ ".tmp") (to_string_pretty cfg)).rename
        (path ++ ".tmp") path, none) := by
    simp [save_config, hcond]
  refine ⟨hmain, ?_, ?_⟩ <;>
    rw [hmain,
        FS.rename_eq _ _ _ (to_string_pretty cfg)
          (FS.read_write_self fs (path ++ ".tmp") (to_string_pretty cfg))]
  · exact FS.read_write_self _ path _
  · rw [FS.read_write_ne _ _ _ _ (append_tmp_ne path)]
    unfold FS.read
    rw [find?_key_filter_self]
    rfl

/-! ### Helper lemma for the parser -/

/-- Shape of every successful parse: each descriptor field comes from the
corresponding URL component, with the tag defaulting to the fixed
literal. -/
theorem parse_config_ok_shape (config : String) (url : Url) (d : VlessConfig)
    (hd : parse_config config (some url) = .ok d) :
    url.host = some d.address ∧ url.port = some d.port ∧
    d.uuid = url.username ∧ d.params = url.queryPairs ∧
    d.tag = url.fragment.getD "VLESS-Config" := by
  by_cases hstart : starts_with config "vless://" = true
  · by_cases hu : url.username.isEmpty = true
    · simp [parse_config, hstart, hu] at hd
    · cases hh : url.host with
      | none => simp [parse_config, hstart, hu, hh] at hd
      | some a =>
        cases hp : url.port with
        | none => simp [parse_config, hstart, hu, hh, hp] at hd
        | some n =>
          simp [parse_config, hstart, hu, hh, hp] at hd
          subst hd
          exact ⟨rfl, rfl, rfl, rfl, rfl⟩
  · simp [parse_config, hstart] at hd

/-! ### The claims -/

/-- C1: for every descriptor, the builder's stream-settings (embedded as
the `streamSettings` field of the single outbound) contains a
`realitySettings` block exactly when `parameters["security"]` is
`"reality"`, and a `tlsSettings` block exactly when it is `"tls"` or
absent; for any other value it contains neither block. -/
theorem c1_security_mode_branching (c : VlessConfig) :
    (build_config c).outbounds = [outbound c]
  ∧ (outbound c).getKey "streamSettings" = some (stream_settings c)
  ∧ ((stream_settings c).hasKey "realitySettings" = true ↔
       getParam c.params "security" = some "reality")
  ∧ ((stream_settings c).hasKey "tlsSettings" = true ↔
       (getParam c.params "security" = some "tls" ∨
        getParam c.params "security" = none)) := by
  refine ⟨rfl, rfl, ?_, ?_⟩ <;>
  · cases hg : getParam c.params "security" with
    | none =>
      have hs : security c = "tls" := by simp [security, hg]
      simp [stream_settings, hs, Json.hasKey, Json.getKey, Json.setKey, hg]
    | some s =>
      have hs : security c = s := by simp [security, hg]
      by_cases h1 : s = "reality"
      · subst h1
        simp [stream_settings, hs, Json.hasKey, Json.getKey, Json.setKey, hg]
      · by_cases h2 : s = "tls"
        · subst h2
          simp [stream_settings, hs, Json.hasKey, Json.getKey, Json.setKey, hg]
        · simp [stream_settings, hs, Json.hasKey, Json.getKey, Json.setKey,
            hg, h1, h2]

/-- C2: under `security = "reality"` the `realitySettings` block holds
`publicKey` and `password` both equal to `parameters["pbk"]` (default
empty), `fingerprint` from `parameters["fp"]` (default `"chrome"`),
`serverName` from `parameters["sni"]` (default empty), `shortId` from
`parameters["sid"]` (default empty), and the fixed `spiderX = "/"`. -/
theorem c2_reality_settings_fields (c : VlessConfig)
    (h : getParam c.params "security" = some "reality") :
    (stream_settings c).getKey "realitySettings" = some (Json.obj
      [("publicKey", .str ((getParam c.params "pbk").getD "")),
       ("password", .str ((getParam c.params "pbk").getD "")),
       ("fingerprint", .str ((getParam c.params "fp").getD "chrome")),
       ("serverName", .str ((getParam c.params "sni").getD "")),
       ("shortId", .str ((getParam c.params "sid").getD "")),
       ("spiderX", .str "/")]) := by
  have hs : security c = "reality" := by simp [security, h]
  simp [stream_settings, hs, Json.getKey, Json.setKey, reality_settings]

/-- C2 witness: a concrete reality-mode descriptor. -/
theorem c2_reality_settings_fields_witness :
    getParam [("security", "reality"), ("pbk", "KEY")] "security" = some "reality"
  ∧ (stream_settings
      { uuid := "u", address := "h", port := 1,
        params := [("security", "reality"), ("pbk", "KEY")], tag := "t"
      }).getKey "realitySettings" = some (Json.obj
      [("publicKey", .str "KEY"),
       ("password", .str "KEY"),
       ("fingerprint", .str "chrome"),
       ("serverName", .str ""),
       ("shortId", .str ""),
       ("spiderX", .str "/")]) :=
  ⟨rfl, c2_reality_settings_fields
    { uuid := "u", address := "h", port := 1,
      params := [("security", "reality"), ("pbk", "KEY")], tag := "t" } rfl⟩

/-- C3: under `security = "tls"` or absent, the `tlsSettings` block holds
`serverName` from `parameters["sni"]` (the descriptor's host when the
key is absent) and the fixed `allowInsecure = false`. -/
theorem c3_tls_settings_fields (c : VlessConfig)
    (h : getParam c.params "security" = some "tls" ∨
         getParam c.params "security" = none) :
    (stream_settings c).getKey "tlsSettings" = some (Json.obj
      [("serverName", .str ((getParam c.params "sni").getD c.address)),
       ("allowInsecure", .bool false)]) := by
  have hs : security c = "tls" := by
    rcases h with h | h <;> simp [security, h]
  simp [stream_settings, hs, Json.getKey, Json.setKey, tls_settings]

/-- C3 witness: a concrete descriptor with no `security` and no `sni`
parameter, whose TLS server name falls back to the host. -/
theorem c3_tls_settings_fields_witness :
    getParam ([] : List (String × String)) "security" = none
  ∧ (stream_settings
      { uuid := "u", address := "example.com", port := 443,
        params := [], tag := "t" }).getKey "tlsSettings" = some (Json.obj
      [("serverName", .str "example.com"),
       ("allowInsecure", .bool false)]) :=
  ⟨rfl, c3_tls_settings_fields
    { uuid := "u", address := "example.com", port := 443,
      params := [], tag := "t" } (Or.inr rfl)⟩

/-- C4 counterexample: the parser keeps the fragment exactly as the URL
parser returns it (percent-encoded); on the input
`vless://u@example.com:443#My%20Server` the tag is `"My%20Server"`,
while the percent-decoded fragment would be `"My Server"`. -/
theorem c4_counterexample :
    parse_config "vless://u@example.com:443#My%20Server"
      (some { username := "u", host := some "example.com", port := some 443,
              queryPairs := [], fragment := some "My%20Server" })
      = .ok { uuid := "u", address := "example.com", port := 443,
              params := [], tag := "My%20Server" }
  ∧ percentDecode "My%20Server" = "My Server"
  ∧ "My%20Server" ≠ "My Server" :=
  ⟨rfl, by decide, by decide⟩

/-- C4 (amended): for every successful parse, the descriptor's tag equals
the URL's fragment component exactly as returned by the URL parser (not
further percent-decoded), and the fixed default literal `"VLESS-Config"`
when the URL has no fragment. -/
theorem c4_tag_from_fragment (config : String) (url : Url)
    (d : VlessConfig) (hd : parse_config config (some url) = .ok d) :
    d.tag = url.fragment.getD "VLESS-Config" :=
  (parse_config_ok_shape config url d hd).2.2.2.2

/-- C4 witness: one parse with a fragment and one without. -/
theorem c4_tag_from_fragment_witness :
    ({ uuid := "u", address := "example.com", port := 443,
       params := [], tag := "My%20Server" } : VlessConfig).tag
      = (some "My%20Server").getD "VLESS-Config"
  ∧ ({ uuid := "u", address := "example.com", port := 443,
       params := [], tag := "VLESS-Config" } : VlessConfig).tag
      = (none : Option String).getD "VLESS-Config" :=
  ⟨c4_tag_from_fragment "vless://u@example.com:443#My%20Server"
    { username := "u", host := some "example.com", port := some 443,
      queryPairs := [], fragment := some "My%20Server" }
    { uuid := "u", address := "example.com", port := 443,
      params := [], tag := "My%20Server" } rfl,
   c4_tag_from_fragment "vless://u@example.com:443"
    { username := "u", host := some "example.com", port := some 443,
      queryPairs := [], fragment := none }
    { uuid := "u", address := "example.com", port := 443,
      params := [], tag := "VLESS-Config" } rfl⟩

/-- C5: an input not beginning with `vless://` fails with `InvalidScheme`
whatever the URL parser would have returned (so before any further
parsing), and produces no descriptor. -/
theorem c5_invalid_scheme (config : String) (url? : Option Url)
    (h : starts_with config "vless://" = false) :
    parse_config config url? = .error .invalidScheme := by
  simp [parse_config, h]

/-- C5 witness: an `http://` input fails identically with and without a
parsed URL. -/
theorem c5_invalid_scheme_witness :
    starts_with "http://u@example.com:443" "vless://" = false
  ∧ parse_config "http://u@example.com:443" none = .error .invalidScheme
  ∧ parse_config "http://u@example.com:443"
      (some { username := "u", host := some "example.com", port := some 443,
              queryPairs := [], fragment := none }) = .error .invalidScheme :=
  ⟨by decide, c5_invalid_scheme _ none (by decide),
   c5_invalid_scheme _ _ (by decide)⟩

/-- C6: an empty (or absent, which the URL parser reports as empty)
username fails with `MissingIdentity`, a missing host with
`MissingHost`, a missing explicit port with `MissingPort`; and every
successful parse takes its port from the URL, so no default port is
ever substituted. -/
theorem c6_missing_components (config : String) (url : Url)
    (h : starts_with config "vless://" = true) :
    (url.username = "" → parse_config config (some url) = .error .missingIdentity)
  ∧ (url.username ≠ "" → url.host = none →
       parse_config config (some url) = .error .missingHost)
  ∧ (url.username ≠ "" → url.host ≠ none → url.port = none →
       parse_config config (some url) = .error .missingPort)
  ∧ (∀ d, parse_config config (some url) = .ok d → url.port = some d.port) := by
  refine ⟨?_, ?_, ?_, fun d hd => (parse_config_ok_shape config url d hd).2.1⟩
  · intro hu
    have he : ("" : String).isEmpty = true := rfl
    simp [parse_config, h, hu, he]
  · intro hu hh
    have hne : url.username.isEmpty = false := by
      rw [Bool.eq_false_iff]
      intro he
      exact hu ((String.isEmpty_iff _).mp he)
    simp [parse_config, h, hne, hh]
  · intro hu hh hp
    have hne : url.username.isEmpty = false := by
      rw [Bool.eq_false_iff]
      intro he
      exact hu ((String.isEmpty_iff _).mp he)
    obtain ⟨a, ha⟩ := Option.ne_none_iff_exists'.mp hh
    simp [parse_config, h, hne, ha, hp]

/-- C6 witness: concrete inputs for each missing component, plus a
successful parse whose port is the URL's explicit port. -/
theorem c6_missing_components_witness :
    parse_config "vless://@example.com:443"
      (some { username := "", host := some "example.com", port := some 443,
              queryPairs := [], fragment := none }) = .error .missingIdentity
  ∧ parse_config "vless://u@:443"
      (some { username := "u", host := none, port := none,
              queryPairs := [], fragment := none }) = .error .missingHost
  ∧ parse_config "vless://u@example.com"
      (some { username := "u", host := some "example.com", port := none,
              queryPairs := [], fragment := none }) = .error .missingPort
  ∧ ({ username := "u", host := some "example.com", port := some 443,
       queryPairs := [], fragment := none } : Url).port = some 443 :=
  ⟨(c6_missing_components "vless://@example.com:443"
      { username := "", host := some "example.com", port := some 443,
        queryPairs := [], fragment := none } (by decide)).1 rfl,
   (c6_missing_components "vless://u@:443"
      { username := "u", host := none, port := none,
        queryPairs := [], fragment := none } (by decide)).2.1 (by decide) rfl,
   (c6_missing_components "vless://u@example.com"
      { username := "u", host := some "example.com", port := none,
        queryPairs := [], fragment := none } (by decide)).2.2.1
      (by decide) (by decide) rfl,
   (c6_missing_components "vless://u@example.com:443"
      { username := "u", host := some "example.com", port := some 443,
        queryPairs := [], fragment := none } (by decide)).2.2.2
      { uuid := "u", address := "example.com", port := 443,
        params := [], tag := "VLESS-Config" } rfl⟩

/-- C7: the user object of the builder's output carries a `flow` field
with the parameter's value exactly when the `flow` key is present, and
no `flow` field at all otherwise; the user object sits inside the
outbound's `settings.vnext[0].users`. -/
theorem c7_flow_field_presence (c : VlessConfig) :
    (user_obj c).getKey "flow" = (getParam c.params "flow").map Json.str
  ∧ (outbound c).getKey "settings" = some (Json.obj
      [("vnext", Json.arr
        [ Json.obj [("address", .str c.address),
                    ("port", .nat c.port),
                    ("users", Json.arr [user_obj c])] ])]) := by
  refine ⟨?_, rfl⟩
  cases hf : getParam c.params "flow" with
  | none => simp [user_obj, hf, Json.getKey]
  | some v => simp [user_obj, hf, Json.getKey, Json.setKey]

/-- C8: the builder is deterministic; equal descriptors yield equal
configs and byte-identical serialized output. -/
theorem c8_build_config_deterministic (c₁ c₂ : VlessConfig) (h : c₁ = c₂) :
    build_config c₁ = build_config c₂ ∧
    to_string_pretty (build_config c₁) = to_string_pretty (build_config c₂) := by
  subst h
  exact ⟨rfl, rfl⟩

/-- C8 witness: two invocations on the same concrete descriptor. -/
theorem c8_build_config_deterministic_witness :
    build_config { uuid := "u", address := "h", port := 1, params := [], tag := "t" }
      = build_config { uuid := "u", address := "h", port := 1, params := [], tag := "t" }
  ∧ to_string_pretty (build_config
      { uuid := "u", address := "h", port := 1, params := [], tag := "t" })
      = to_string_pretty (build_config
      { uuid := "u", address := "h", port := 1, params := [], tag := "t" }) :=
  c8_build_config_deterministic _ _ rfl

/-- C9: saving onto an existing destination without `force` fails with
the destination-exists error and returns the file system unchanged (so
the existing file is byte-for-byte untouched); with `force` set it
succeeds and the destination holds exactly the new serialized content. -/
theorem c9_destination_exists_guard (fs : FS) (cfg : XrayConfig) (path : String)
    (h : fs.pathExists path = true) :
    save_config fs cfg path false = (fs, some .destinationExists)
  ∧ (save_config fs cfg path true).2 = none
  ∧ (save_config fs cfg path true).1.read path = some (to_string_pretty cfg) := by
  refine ⟨?_, ?_, (save_config_writes fs cfg path true (Or.inr rfl)).2.1⟩
  · simp [save_config, h]
  · rw [(save_config_writes fs cfg path true (Or.inr rfl)).1]

/-- C9 witness: a concrete file system with an existing destination. -/
theorem c9_destination_exists_guard_witness :
    FS.pathExists (FS.mk [("out.json", "old")]) "out.json" = true
  ∧ save_config (FS.mk [("out.json", "old")]) (XrayConfig.mk [] []) "out.json" false
      = (FS.mk [("out.json", "old")], some .destinationExists)
  ∧ (save_config (FS.mk [("out.json", "old")]) (XrayConfig.mk [] []) "out.json" true).2
      = none
  ∧ (save_config (FS.mk [("out.json", "old")]) (XrayConfig.mk [] []) "out.json" true).1.read
      "out.json" = some (to_string_pretty (XrayConfig.mk [] [])) :=
  ⟨by decide,
   (c9_destination_exists_guard (FS.mk [("out.json", "old")])
     (XrayConfig.mk [] []) "out.json" (by decide)).1,
   (c9_destination_exists_guard (FS.mk [("out.json", "old")])
     (XrayConfig.mk [] []) "out.json" (by decide)).2.1,
   (c9_destination_exists_guard (FS.mk [("out.json", "old")])
     (XrayConfig.mk [] []) "out.json" (by decide)).2.2⟩

/-- C10: whenever persistence proceeds (destination absent or `force`
set), the run is exactly a write to the sibling path `path ++ ".tmp"`
followed by a rename onto the destination; any pre-existing file at the
`.tmp` path is silently destroyed regardless of the flag, the
destination holds the new content, and no error is reported. -/
theorem c10_temp_sibling_overwritten (fs : FS) (cfg : XrayConfig)
    (path : String) (force : Bool) (c₀ : String)
    (_hpre : fs.read (path ++ ".tmp") = some c₀)
    (h : fs.pathExists path = false ∨ force = true) :
    save_config fs cfg path force =
      ((fs.write (path ++ ".tmp") (to_string_pretty cfg)).rename
        (path ++ ".tmp") path, none)
  ∧ (save_config fs cfg path force).1.read (path ++ ".tmp") = none
  ∧ (save_config fs cfg path force).1.read path = some (to_string_pretty cfg) :=
  ⟨(save_config_writes fs cfg path force h).1,
   (save_config_writes fs cfg path force h).2.2,
   (save_config_writes fs cfg path force h).2.1⟩

/-- C10 witness: a pre-existing `.tmp` file is destroyed by a save with
the overwrite flag unset. -/
theorem c10_temp_sibling_overwritten_witness :
    FS.read (FS.mk [("out.json.tmp", "junk")]) ("out.json" ++ ".tmp") = some "junk"
  ∧ (FS.pathExists (FS.mk [("out.json.tmp", "junk")]) "out.json" = false ∨
      False = true)
  ∧ save_config (FS.mk [("out.json.tmp", "junk")]) (XrayConfig.mk [] [])
      "out.json" false =
      (((FS.mk [("out.json.tmp", "junk")]).write ("out.json" ++ ".tmp")
          (to_string_pretty (XrayConfig.mk [] []))).rename
        ("out.json" ++ ".tmp") "out.json", none)
  ∧ (save_config (FS.mk [("out.json.tmp", "junk")]) (XrayConfig.mk [] [])
      "out.json" false).1.read ("out.json" ++ ".tmp") = none
  ∧ (save_config (FS.mk [("out.json.tmp", "junk")]) (XrayConfig.mk [] [])
      "out.json" false).1.read "out.json"
      = some (to_string_pretty (XrayConfig.mk [] [])) :=
  ⟨by decide, Or.inl (by decide),
   (c10_temp_sibling_overwritten (FS.mk [("out.json.tmp", "junk")])
     (XrayConfig.mk [] []) "out.json" false "junk" (by decide)
     (Or.inl (by decide))).1,
   (c10_temp_sibling_overwritten (FS.mk [("out.json.tmp", "junk")])
     (XrayConfig.mk [] []) "out.json" false "junk" (by decide)
     (Or.inl (by decide))).2.1,
   (c10_temp_sibling_overwritten (FS.mk [("out.json.tmp", "junk")])
     (XrayConfig.mk [] []) "out.json" false "junk" (by decide)
     (Or.inl (by decide))).2.2⟩
